import Mathlib

/-!
Shallow embedding of `src/fpl_deadline_notifier.py` (an FPL daily-digest
Telegram notifier) together with theorems settling the frozen claims about
its specification.

Conventions of the embedding:
* Python strings are Lean `String`s (a `String` is a packed `List Char`).
* JSON numeric fields are `Int`; derived real-valued metrics are `ℚ`
  (CPython floats are modelled by exact rationals; every rounding decision
  made by the program on the inputs appearing in the theorems is
  tie-free, so the model agrees with the float computation).
* A field read with `dict.get(k, default)` in Python is an `Option` field
  read with `Option.getD`; a field accessed with `d[k]` is a plain field.
* Python `dict`s built by the program are insertion-ordered association
  lists `List (Int × α)`.
* `sorted(xs, key=k, reverse=True)` (a stable descending sort) is
  `sortedDescBy k xs`; `sorted(xs, key=k)` is `sortedAscBy k xs`.
* Fallible code (a `float(...)` call that can raise `ValueError`) returns
  `Except String _`.
-/

/-- Decimal number parsing, modelling CPython `float(s)` on plain decimal
literals: optional surrounding whitespace, optional sign, digits with an
optional fractional part.  Returns `none` where `float` raises
`ValueError`. -/
def parseFloatUnsigned (cs : List Char) : Option ℚ :=
  let intPart := cs.takeWhile Char.isDigit
  let rest := cs.dropWhile Char.isDigit
  let intVal : Nat := intPart.foldl (fun n c => n * 10 + (c.toNat - 48)) 0
  match rest with
  | [] => if intPart.isEmpty then none else some intVal
  | '.' :: rest2 =>
    let fracPart := rest2.takeWhile Char.isDigit
    let rest3 := rest2.dropWhile Char.isDigit
    let fracVal : Nat := fracPart.foldl (fun n c => n * 10 + (c.toNat - 48)) 0
    if ¬ rest3.isEmpty then none
    else if intPart.isEmpty ∧ fracPart.isEmpty then none
    else some ((intVal : ℚ) + (fracVal : ℚ) / (10 : ℚ) ^ fracPart.length)
  | _ => none

/-- Strip leading and trailing whitespace (what `float(...)` tolerates). -/
def stripEnds (cs : List Char) : List Char :=
  ((cs.dropWhile Char.isWhitespace).reverse.dropWhile Char.isWhitespace).reverse

def parseFloat (s : String) : Option ℚ :=
  match stripEnds s.toList with
  | '-' :: cs => (parseFloatUnsigned cs).map Neg.neg
  | '+' :: cs => parseFloatUnsigned cs
  | cs => parseFloatUnsigned cs

/-- Python `round(q, 2)`.  CPython rounds half to even; on every value this
program rounds (a mean of at most three integers, so `100*q` has
fractional part `0`, `1/3` or `2/3`) no tie can occur, hence plain nearest
rounding is an exact model. -/
def round2 (q : ℚ) : ℚ := (round (q * 100) : ℤ) / 100

/-- Python truthiness of an optional string (`None` and `""` are falsy). -/
def strFalsy (o : Option String) : Bool :=
  match o with
  | none => true
  | some s => s.isEmpty

-- === Insertion-ordered dictionaries (Python dict) ===

def dictGet? (d : List (Int × α)) (k : Int) : Option α :=
  (d.find? (fun e => e.1 = k)).map (·.2)

/-- `d.get(k, default)`. -/
def dictGetD (d : List (Int × α)) (k : Int) (default : α) : α :=
  (dictGet? d k).getD default

/-- `d.setdefault(k, []).append(v)`: append `v` to the list stored at `k`,
creating the entry (at the end, in insertion order) when missing. -/
def appendEntry (d : List (Int × List α)) (k : Int) (v : α) :
    List (Int × List α) :=
  match d with
  | [] => [(k, [v])]
  | (k2, l) :: rest =>
    if k2 = k then (k2, l ++ [v]) :: rest else (k2, l) :: appendEntry rest k v

-- === Stable sorts (Python `sorted`) ===

/-- Insert `x` into `acc` before the first element whose key is strictly
smaller: exactly where a stable descending sort places a later-arriving
element. -/
def insertDescBy [LinearOrder β] (key : α → β) (x : α) : List α → List α
  | [] => [x]
  | y :: ys => if key y < key x then x :: y :: ys else y :: insertDescBy key x ys

/-- `sorted(l, key=key, reverse=True)`: stable, keys descending. -/
def sortedDescBy [LinearOrder β] (key : α → β) (l : List α) : List α :=
  l.foldl (fun acc x => insertDescBy key x acc) []

def insertAscBy [LinearOrder β] (key : α → β) (x : α) : List α → List α
  | [] => [x]
  | y :: ys => if key x < key y then x :: y :: ys else y :: insertAscBy key x ys

/-- `sorted(l, key=key)`: stable, keys ascending. -/
def sortedAscBy [LinearOrder β] (key : α → β) (l : List α) : List α :=
  l.foldl (fun acc x => insertAscBy key x acc) []

-- === Data model (JSON records, fields as the program reads them) ===

/-- An entry of `data["events"]`. -/
structure Event where
  id : Option Int
  name : Option String
  deadline_time : Option String
  finished : Option Bool
deriving DecidableEq

/-- An entry of `data["teams"]`. -/
structure Team where
  id : Int
  short_name : Option String
  name : Option String
  strength_attack_home : Option Int
  strength_attack_away : Option Int
  strength_defence_home : Option Int
  strength_defence_away : Option Int
deriving DecidableEq

/-- An entry of the fixtures list. -/
structure Fixture where
  team_h : Int
  team_a : Int
  team_h_difficulty : Option Int
  team_a_difficulty : Option Int
  event : Option Int
  finished : Option Bool
deriving DecidableEq

/-- An entry of `data["elements"]` (a player record as fetched). -/
structure Player where
  id : Int
  web_name : Option String
  team : Option Int
  element_type : Option Int
  now_cost : Option Int
  total_points : Option Int
  form : Option String
  selected_by_percent : Option String
  transfers_in_event : Option Int
  transfers_out_event : Option Int
deriving DecidableEq

/-- A player record after `enrich_players` added the derived fields. -/
structure EPlayer where
  player : Player
  points_per_cost : ℚ
  form_value : ℚ
  fixture_difficulty : ℚ
  form_fixture_score : ℚ
  next_fixtures : String
deriving DecidableEq

def POSITION_MAP : List (Int × String) :=
  [(1, "Goalkeepers"), (2, "Defenders"), (3, "Midfielders"), (4, "Forwards")]

-- === clean_and_limit_text / send_telegram_message ===

/-- `clean_and_limit_text(text, limit)`: truncate to the first `limit`
characters when the text is longer, else return it unchanged. -/
def clean_and_limit_text (text : String) (limit : Nat) : String :=
  if limit < text.length then String.mk (text.data.take limit) else text

/-- The message bodies a single `send_telegram_message(text)` call posts to
the chat endpoint: exactly one, run through `clean_and_limit_text` with the
deployed limit of 4096.  This is the whole of the message-assembly step for
one logical document (there is no splitting in the code). -/
def message_chunks (text : String) (limit : Nat) : List String :=
  [clean_and_limit_text text limit]

-- === get_next_deadline ===

/-- How the loop in `get_next_deadline` reads `event.get("finished", True)`. -/
def eventFinished (e : Event) : Bool := e.finished.getD true

/-- `get_next_deadline(events)`.  `parseIso` stands for the library call
`datetime.fromisoformat` (timestamps as integers; `none` where it raises
`ValueError`, which the code catches and skips past). -/
def get_next_deadline (parseIso : String → Option Int) :
    List Event → Option (String × Option Int × Int)
  | [] => none
  | e :: es =>
    if eventFinished e then get_next_deadline parseIso es
    else
      let dstr := (e.deadline_time.getD "").replace "Z" "+00:00"
      if dstr.isEmpty then get_next_deadline parseIso es
      else
        match parseIso dstr with
        | some d => some (e.name.getD "Unknown GW", e.id, d)
        | none => get_next_deadline parseIso es

-- === get_team_data_map ===

structure TeamData where
  short_name : String
  attack_strength : ℚ
  defence_strength : ℚ
deriving DecidableEq

/-- `get_team_data_map(teams)`: id -> short name and normalized strengths. -/
def get_team_data_map (teams : List Team) : List (Int × TeamData) :=
  teams.map (fun t =>
    (t.id,
     { short_name := t.short_name.getD (t.name.getD (toString t.id))
       attack_strength :=
         ((t.strength_attack_home.getD 300 : ℚ) +
          (t.strength_attack_away.getD 300 : ℚ)) / 200
       defence_strength :=
         ((t.strength_defence_home.getD 300 : ℚ) +
          (t.strength_defence_away.getD 300 : ℚ)) / 200 }))

-- === calculate_fixture_difficulty ===

/-- The initial dict `{t["id"]: [] for t in teams}` (later duplicates of an
id collapse onto the first entry). -/
def initTeamFixtures (teams : List Team) : List (Int × List Int) :=
  teams.foldl
    (fun d t => if (dictGet? d t.id).isSome then d else d ++ [(t.id, [])]) []

/-- One iteration of the fixture loop in `calculate_fixture_difficulty`. -/
def fdrStep (d : List (Int × List Int)) (f : Fixture) : List (Int × List Int) :=
  if f.finished.getD false then d
  else
    appendEntry (appendEntry d f.team_h (f.team_h_difficulty.getD 3))
      f.team_a (f.team_a_difficulty.getD 3)

/-- The dict `team_fixtures` after the fixture loop. -/
def buildTeamFixtures (fixtures : List Fixture) (teams : List Team) :
    List (Int × List Int) :=
  fixtures.foldl fdrStep (initTeamFixtures teams)

/-- `avg_diff` for one team entry: mean of the first three collected
difficulties rounded to two decimals, `3.0` when none were collected. -/
def fdrOf (diffs : List Int) : ℚ :=
  let upcoming := diffs.take 3
  if upcoming.isEmpty then 3
  else round2 ((upcoming.map (Int.cast : Int → ℚ)).sum / upcoming.length)

/-- `calculate_fixture_difficulty(fixtures, teams)`: the `team_fdr` dict. -/
def calculate_fixture_difficulty (fixtures : List Fixture) (teams : List Team) :
    List (Int × ℚ) :=
  (buildTeamFixtures fixtures teams).map (fun e => (e.1, fdrOf e.2))

/-- Specification-side view of the same data: the difficulties the loop
collects for team `tid`, in fixture order (home difficulty first when the
team is both sides of one fixture, matching the append order). -/
def upcomingDiffs (fixtures : List Fixture) (tid : Int) : List Int :=
  match fixtures with
  | [] => []
  | f :: fs =>
    if f.finished.getD false then upcomingDiffs fs tid
    else
      ((if f.team_h = tid then [f.team_h_difficulty.getD 3] else []) ++
       (if f.team_a = tid then [f.team_a_difficulty.getD 3] else [])) ++
      upcomingDiffs fs tid

-- === build_fixture_map ===

/-- Python truthiness of `f.get("event")`. -/
def eventTruthy (o : Option Int) : Bool :=
  match o with
  | none => false
  | some n => n ≠ 0

/-- One iteration of the fixture loop in `build_fixture_map`. -/
def fixtureMapStep (teams_map_short : List (Int × String))
    (d : List (Int × List String)) (f : Fixture) : List (Int × List String) :=
  let opp_a := dictGetD teams_map_short f.team_a "?"
  let fixture_h_str :=
    opp_a ++ "(" ++ toString (f.team_h_difficulty.getD 3) ++ ")"
  let opp_h := dictGetD teams_map_short f.team_h "?"
  let fixture_a_str :=
    opp_h ++ "(" ++ toString (f.team_a_difficulty.getD 3) ++ ")"
  let d :=
    if (dictGetD d f.team_h []).length < 3 then appendEntry d f.team_h fixture_h_str
    else d
  if (dictGetD d f.team_a []).length < 3 then appendEntry d f.team_a fixture_a_str
  else d

/-- `build_fixture_map(fixtures, teams_map_short, current_gw_id)`:
team id -> comma-joined next-3 fixture display strings.  (The
`current_gw_id` argument is unused in the source too.) -/
def build_fixture_map (fixtures : List Fixture)
    (teams_map_short : List (Int × String)) (_current_gw_id : Option Int) :
    List (Int × String) :=
  let relevant :=
    sortedAscBy (fun f => f.event.getD 0)
      (fixtures.filter
        (fun f => ¬ f.finished.getD false ∧ eventTruthy f.event))
  let init := teams_map_short.map (fun e => (e.1, ([] : List String)))
  let filled := relevant.foldl (fixtureMapStep teams_map_short) init
  filled.map (fun e => (e.1, String.intercalate ", " e.2))

-- === enrich_players ===

/-- `p["points_per_cost"] = p.get("total_points", 0) / (cost / 10) if cost
else 0`. -/
def points_per_cost_of (now_cost total_points : Int) : ℚ :=
  if now_cost = 0 then 0 else (total_points : ℚ) / ((now_cost : ℚ) / 10)

/-- `float(p.get("form") or 0.0)` with the `except` clause: absent/null or
empty string give `0.0`; a parse failure is caught and gives `0.0`. -/
def form_value_of (form : Option String) : ℚ :=
  match form with
  | none => 0
  | some s => if s.isEmpty then 0 else (parseFloat s).getD 0

/-- `p["form_fixture_score"] = p["form_value"] * (5.5 - p["fixture_difficulty"])`. -/
def form_fixture_score_fn (form_value fixture_difficulty : ℚ) : ℚ :=
  form_value * (5.5 - fixture_difficulty)

/-- The loop body of `enrich_players` for one player record. -/
def enrichPlayer (team_fdr : List (Int × ℚ)) (team_fixture_map : List (Int × String))
    (p : Player) : EPlayer :=
  let fd : ℚ :=
    match p.team with
    | none => 3
    | some t => dictGetD team_fdr t 3
  let fv := form_value_of p.form
  { player := p
    points_per_cost := points_per_cost_of (p.now_cost.getD 0) (p.total_points.getD 0)
    form_value := fv
    fixture_difficulty := fd
    form_fixture_score := form_fixture_score_fn fv fd
    next_fixtures :=
      match p.team with
      | none => "N/A"
      | some t => dictGetD team_fixture_map t "N/A" }

/-- `enrich_players(elements, team_fdr, team_fixture_map)`. -/
def enrich_players (elements : List Player) (team_fdr : List (Int × ℚ))
    (team_fixture_map : List (Int × String)) : List EPlayer :=
  elements.map (enrichPlayer team_fdr team_fixture_map)

/-- `p["watch_score"] = (p.get("form_fixture_score", 0) * 2) +
p.get("points_per_cost", 0)`, as computed in `build_watchlist` and
`get_personal_analysis`. -/
def watchScore (p : EPlayer) : ℚ := p.form_fixture_score * 2 + p.points_per_cost

-- === Display helpers ===

/-- Python `round(q, d)` (tie-free on the values this program rounds). -/
def ratRound (q : ℚ) (d : Nat) : ℚ := (round (q * (10 : ℚ) ^ d) : ℤ) / (10 : ℚ) ^ d

/-- Fixed-point decimal rendering of `round(q, d)`, standing in for the
CPython `str(...)` of the rounded value inside f-strings.  (Exact float
`repr` quirks are not modelled; no claim depends on these display
strings.) -/
def ratDisplay (q : ℚ) (d : Nat) : String :=
  let scaled : ℤ := round (q * (10 : ℚ) ^ d)
  if d = 0 then toString scaled
  else
    let sign := if scaled < 0 then "-" else ""
    let n := scaled.natAbs
    let fpStr := toString (n % 10 ^ d)
    sign ++ toString (n / 10 ^ d) ++ "." ++
      String.mk (List.replicate (d - fpStr.length) '0') ++ fpStr

/-- The decorative separator line the script appends to sections
(glyphs simplified to ASCII). -/
def SEP : String := String.mk (List.replicate 22 '=')

-- === get_captaincy_picks ===

structure Cand where
  team_id : Int
  opponent_id : Int
  score : ℚ
  venue : String
deriving DecidableEq

def candLine (team_data_map : List (Int × TeamData)) (i : Nat) (c : Cand) :
    String :=
  let team_name := (dictGetD team_data_map c.team_id ⟨"?", 0, 0⟩).short_name
  let opp_name := (dictGetD team_data_map c.opponent_id ⟨"?", 0, 0⟩).short_name
  toString (i + 1) ++ ". " ++ team_name ++ " " ++ c.venue ++ " vs " ++ opp_name ++
    " (Score: " ++ ratDisplay c.score 2 ++ ")"

/-- `get_captaincy_picks(team_data_map, fixtures, current_gw_id)`. -/
def get_captaincy_picks (team_data_map : List (Int × TeamData))
    (fixtures : List Fixture) (current_gw_id : Option Int) : String :=
  let next_fixtures := fixtures.filter (fun f => f.event == current_gw_id)
  let cands :=
    next_fixtures.foldl
      (fun (acc : List Cand × List Cand) f =>
        match dictGet? team_data_map f.team_h, dictGet? team_data_map f.team_a with
        | some th, some ta =>
          (acc.1 ++
            [⟨f.team_h, f.team_a, th.attack_strength + (6 - ta.defence_strength), "(H)"⟩,
             ⟨f.team_a, f.team_h, ta.attack_strength + (6 - th.defence_strength), "(A)"⟩],
           acc.2 ++
            [⟨f.team_h, f.team_a, th.defence_strength + (6 - ta.attack_strength), "(H)"⟩,
             ⟨f.team_a, f.team_h, ta.defence_strength + (6 - th.attack_strength), "(A)"⟩])
        | _, _ => acc)
      ([], [])
  let top_attack := (sortedDescBy (fun c => c.score) cands.1).take 3
  let top_defence := (sortedDescBy (fun c => c.score) cands.2).take 3
  let gwStr := match current_gw_id with | some n => toString n | none => "None"
  let lines :=
    ["*Captaincy & Transfer Targets (GW " ++ gwStr ++ ")*\n"] ++
    ["*Top 3 Attacking Fixtures (Goals/Assists potential):*"] ++
    (top_attack.enum.map (fun e => candLine team_data_map e.1 e.2)) ++
    ["\n*Top 3 Defensive Fixtures (Clean Sheet potential):*"] ++
    (top_defence.enum.map (fun e => candLine team_data_map e.1 e.2))
  String.intercalate "\n" lines ++ "\n" ++ SEP

-- === get_personal_analysis ===

/-- The per-position buy-candidate selection in `get_personal_analysis`.
The loop `for p in players_in_pos: p["watch_score"] = ...` leaves `p` bound
to the last element of `players_in_pos`; the sort key
`lambda x: p.get("watch_score", 0)` reads that leftover `p`, not `x`, so it
is a constant function for the list being sorted. -/
def personalTopWatch (elements : List EPlayer) (my_picks : List Int)
    (pos_id : Int) : List EPlayer :=
  let players_in_pos :=
    elements.filter (fun p => p.player.element_type == some pos_id)
  let k : ℚ :=
    match players_in_pos.getLast? with
    | some p => watchScore p
    | none => 0
  (sortedDescBy (fun _ => k)
    (players_in_pos.filter (fun p => ¬ my_picks.contains p.player.id))).take 3

def teamShortOf (teams_map_short : List (Int × String)) (t : Option Int) :
    String :=
  match t with
  | none => "?"
  | some i => dictGetD teams_map_short i "?"

/-- `get_personal_analysis(my_picks, elements, teams_map_short)`. -/
def get_personal_analysis (my_picks : Option (List Int))
    (elements : List EPlayer) (teams_map_short : List (Int × String)) : String :=
  match my_picks with
  | none => "*Personalized Analysis:* FPL Team ID not set or team data unavailable."
  | some picks =>
    let my_squad := elements.filter (fun p => picks.contains p.player.id)
    if my_squad.isEmpty then
      "*Personalized Analysis:* No players found matching your squad."
    else
      let captaincy_candidates :=
        sortedDescBy (fun x => x.form_fixture_score) my_squad
      let captain_text :=
        match captaincy_candidates with
        | [] =>
          "*Your Captaincy Suggestion (GW Next):*" ++
          "\nNo suitable captain candidates found in your squad."
        | best :: _ =>
          "*Your Captaincy Suggestion (GW Next):*" ++
          "\nYour best pick is *" ++ best.player.web_name.getD "N/A" ++ "* (" ++
          teamShortOf teams_map_short best.player.team ++ ")." ++
          "\n  - Metric Score (Form x Fixture): " ++
          ratDisplay best.form_fixture_score 2 ++
          "\n  - Next 3 Fixtures: " ++ best.next_fixtures
      let transfer_suggestions :=
        POSITION_MAP.filterMap (fun pp =>
          let squad_pos :=
            my_squad.filter (fun p => p.player.element_type == some pp.1)
          if squad_pos.isEmpty then none
          else
            let active_squad_pos :=
              squad_pos.filter (fun p => 0 < p.player.total_points.getD 0)
            match sortedAscBy (fun x => x.form_fixture_score) active_squad_pos with
            | [] => none
            | player_to_sell :: _ =>
              match personalTopWatch elements picks pp.1 with
              | [] => none
              | player_to_buy :: _ =>
                if player_to_sell.form_fixture_score + 1 <
                    player_to_buy.form_fixture_score then
                  some ("*" ++ pp.2 ++ ":* Sell *" ++
                    player_to_sell.player.web_name.getD "N/A" ++ "* (" ++
                    teamShortOf teams_map_short player_to_sell.player.team ++
                    ", Score: " ++ ratDisplay player_to_sell.form_fixture_score 2 ++
                    ") for *" ++ player_to_buy.player.web_name.getD "N/A" ++ "* (" ++
                    teamShortOf teams_map_short player_to_buy.player.team ++
                    ", Score: " ++ ratDisplay player_to_buy.form_fixture_score 2 ++ ")")
                else none)
      let transfer_text :=
        "\n*Transfer Suggestions (Sell Weakest Player):*" ++
        (if transfer_suggestions.isEmpty then
          "\nYour squad looks well-balanced for the upcoming fixtures! No strong transfer calls."
        else "\n" ++ String.intercalate "\n" transfer_suggestions)
      String.intercalate "\n\n" [captain_text, transfer_text] ++ "\n" ++ SEP

-- === summarize_players ===

def section_title_of (title : String) : String :=
  "\n\n\n*" ++ title ++ "*\n" ++ String.mk (List.replicate 20 '-')

def playerLine (teams_map_short : List (Int × String)) (i : Nat) (p : EPlayer)
    (metric : EPlayer → ℚ) (round_digits : Nat) (show_fixtures : Bool) : String :=
  let line :=
    toString (i + 1) ++ ". " ++ p.player.web_name.getD "N/A" ++ " (" ++
    teamShortOf teams_map_short p.player.team ++ ") (" ++
    ratDisplay (metric p) round_digits ++ ") (Pts: " ++
    toString (p.player.total_points.getD 0) ++ ")"
  if show_fixtures then line ++ " (Next 3: " ++ p.next_fixtures ++ ")" else line

/-- The nested `fmt(title, data, metric, round_digits, show_fixtures)`
helper of `summarize_players`. -/
def fmt (teams_map_short : List (Int × String)) (title : String)
    (data : List EPlayer) (metric : EPlayer → ℚ) (round_digits : Nat)
    (show_fixtures : Bool) : String :=
  if data.isEmpty then section_title_of title ++ "\nNone"
  else
    section_title_of title ++ "\n" ++
    String.intercalate "\n"
      (data.enum.map (fun e =>
        playerLine teams_map_short e.1 e.2 metric round_digits show_fixtures))

/-- `float(p.get("selected_by_percent", 0))` in the differential filter:
the absent field defaults to the number `0`, but a malformed string makes
`float` raise `ValueError` — there is no `try` around it. -/
def percentValue (o : Option String) : Except String ℚ :=
  match o with
  | none => Except.ok 0
  | some s =>
    match parseFloat s with
    | some q => Except.ok q
    | none => Except.error "ValueError: could not convert string to float"

/-- The list comprehension
`[p for p in players if float(p.get("selected_by_percent", 0)) < 10]`. -/
def buildDiffs : List EPlayer → Except String (List EPlayer)
  | [] => Except.ok []
  | p :: ps => do
    let v ← percentValue p.player.selected_by_percent
    let rest ← buildDiffs ps
    if v < 10 then pure (p :: rest) else pure rest

/-- One position section of `summarize_players`. -/
def summarizeSection (teams_map_short : List (Int × String)) (pos_name : String)
    (players : List EPlayer) : Except String String := do
  let top_in := (sortedDescBy (fun x => x.player.transfers_in_event.getD 0) players).take 5
  let top_out := (sortedDescBy (fun x => x.player.transfers_out_event.getD 0) players).take 5
  let top_value := (sortedDescBy (fun x => x.points_per_cost) players).take 10
  let top_form := (sortedDescBy (fun x => x.form_value) players).take 5
  let diffs ← buildDiffs players
  let top_diff := (sortedDescBy (fun x => x.player.total_points.getD 0) diffs).take 5
  let top_fixture_form := (sortedDescBy (fun x => x.form_fixture_score) players).take 5
  pure ("\n\n\n* " ++ pos_name ++ " Analysis *" ++
    fmt teams_map_short "Top 5 Transfers IN (This GW)" top_in
      (fun p => (p.player.transfers_in_event.getD 0 : ℚ)) 0 false ++
    fmt teams_map_short "Top 5 Transfers OUT (This GW)" top_out
      (fun p => (p.player.transfers_out_event.getD 0 : ℚ)) 0 false ++
    fmt teams_map_short "Top 10 Points/Cost Value" top_value
      (fun p => p.points_per_cost) 2 true ++
    fmt teams_map_short "Top 5 Form Players" top_form
      (fun p => p.form_value) 2 true ++
    fmt teams_map_short "Top 5 Differentials (<10% Ownership)" top_diff
      (fun p => (p.player.total_points.getD 0 : ℚ)) 0 true ++
    fmt teams_map_short "Top 5 Form + Fixture Rating" top_fixture_form
      (fun p => p.form_fixture_score) 2 true)

/-- `summarize_players(elements, teams_map_short)`: one section per
position; the first uncaught `ValueError` aborts the whole call. -/
def summarize_players (elements : List EPlayer)
    (teams_map_short : List (Int × String)) : Except String (List String) :=
  POSITION_MAP.mapM (fun pp =>
    summarizeSection teams_map_short pp.2
      (elements.filter (fun p => p.player.element_type == some pp.1)))

-- === build_watchlist ===

def watchLine (teams_map_short : List (Int × String)) (i : Nat) (p : EPlayer) :
    String :=
  toString (i + 1) ++ ". *" ++ p.player.web_name.getD "N/A" ++ "* (" ++
  teamShortOf teams_map_short p.player.team ++ ") - GBP" ++
  ratDisplay ((p.player.now_cost.getD 0 : ℚ) / 10) 1 ++
  " (Own:" ++ p.player.selected_by_percent.getD "0" ++ "% | Form:" ++
  ratDisplay p.form_value 2 ++ " | FDR:" ++ ratDisplay p.fixture_difficulty 2 ++ ")"

/-- One position block of `build_watchlist`. -/
def watch_section (teams_map_short : List (Int × String)) (pos_name : String)
    (players : List EPlayer) : String :=
  let top_watch := (sortedDescBy watchScore players).take 3
  let lines :=
    top_watch.enum.flatMap (fun e =>
      [watchLine teams_map_short e.1 e.2, "   > Next 3: " ++ e.2.next_fixtures])
  let watch_text := if lines.isEmpty then "None" else String.intercalate "\n" lines
  "*" ++ pos_name ++ ":*\n" ++ watch_text

/-- `build_watchlist(elements, teams_map_short)`. -/
def build_watchlist (elements : List EPlayer)
    (teams_map_short : List (Int × String)) : String :=
  String.intercalate "\n\n"
    (POSITION_MAP.map (fun pp =>
      watch_section teams_map_short pp.2
        (elements.filter (fun p => p.player.element_type == some pp.1))))

-- === get_team_summary ===

/-- The fields `get_team_summary` reads from the per-entry endpoint. -/
structure EntryData where
  name : Option String
  player_first_name : Option String
  player_last_name : Option String
  summary_overall_rank : Option Int
  summary_overall_points : Option Int
  last_deadline_total_transfers : Option Int
deriving DecidableEq

def intFieldStr (o : Option Int) : String :=
  match o with
  | none => "N/A"
  | some n => toString n

/-- `get_team_summary(team_id)` with the fetch result supplied (the
configured team id is the truthy constant string, so the fetch is always
attempted). -/
def get_team_summary (entry : Option EntryData) : String :=
  match entry with
  | none => "\n\n*Could not fetch your team summary.*\n" ++ SEP
  | some d =>
    "\n\n*Your Team: " ++ d.name.getD "N/A" ++ " (" ++
    ((d.player_first_name.getD "") ++ " " ++ (d.player_last_name.getD "")).trim ++
    ")*\n" ++
    "*Overall Rank:* " ++ intFieldStr d.summary_overall_rank ++ "\n" ++
    "*Total Points:* " ++ intFieldStr d.summary_overall_points ++ "\n" ++
    "*Last GW Transfers:* " ++ intFieldStr d.last_deadline_total_transfers ++ "\n" ++
    SEP

-- === run_daily_digest ===

/-- The messaging credentials read from the environment. -/
structure Config where
  token : Option String
  chatId : Option String
deriving DecidableEq

/-- The bulk-static JSON object, keys read with list defaults. -/
structure Bootstrap where
  events : List Event
  teams : List Team
  elements : List Player
deriving DecidableEq

/-- What the network returns on this run: the two mandatory fetches plus
the two optional per-entry fetches (`None` = transport failure or missing
key, exactly what the fetch helpers hand back). -/
structure FetchEnv where
  fplData : Option Bootstrap
  fixturesData : Option (List Fixture)
  myTeamPicks : Option (List Int)
  entryData : Option EntryData
deriving DecidableEq

/-- Observable outcome of one run: the process exit code, how many inbound
HTTP fetches were attempted, and the message bodies posted to the chat
endpoint (in order). -/
structure RunResult where
  exitCode : Nat
  fetchCalls : Nat
  sentMessages : List String
deriving DecidableEq

/-- `run_daily_digest()`.  `parseIso` and `fmtDeadline` stand for the
datetime library calls, `now` for the current clock reading.  A `None`
bootstrap object and an empty fixtures list are both falsy in
`if not data or not fixtures`. -/
def run_daily_digest (cfg : Config) (env : FetchEnv)
    (parseIso : String → Option Int) (now : Int) (fmtDeadline : Int → String) :
    RunResult :=
  if strFalsy cfg.token || strFalsy cfg.chatId then ⟨1, 0, []⟩
  else
    match env.fplData, env.fixturesData with
    | some data, some fixtures =>
      if fixtures.isEmpty then ⟨0, 2, []⟩
      else
        match get_next_deadline parseIso data.events with
        | none => ⟨0, 2, []⟩
        | some (gw_name, gw_id, deadline) =>
          let teams := data.teams
          let team_data_map := get_team_data_map teams
          let teams_map_short := team_data_map.map (fun e => (e.1, e.2.short_name))
          let team_fdr := calculate_fixture_difficulty fixtures teams
          let team_fixture_map := build_fixture_map fixtures teams_map_short gw_id
          let elements := enrich_players data.elements team_fdr team_fixture_map
          let my_picks := env.myTeamPicks
          let days := Int.fdiv (deadline - now) 86400
          let hours := Int.fdiv (Int.emod (deadline - now) 86400) 3600
          let header :=
            "*FPL Daily Digest: " ++ gw_name ++ "*\n*DEADLINE:* " ++
            fmtDeadline deadline ++ "\n*Time Remaining:* " ++ toString days ++
            "d " ++ toString hours ++ "h\n" ++ SEP
          let team_summary := get_team_summary env.entryData
          let watchlist_text := build_watchlist elements teams_map_short
          let captaincy_picks := get_captaincy_picks team_data_map fixtures gw_id
          let personal_analysis :=
            get_personal_analysis my_picks elements teams_map_short
          match summarize_players elements teams_map_short with
          | Except.error _ => ⟨1, 4, []⟩
          | Except.ok position_summaries =>
            let chunk1 :=
              header ++ "\n" ++ team_summary ++ "\n\n" ++ captaincy_picks ++
              "\n\n" ++ personal_analysis ++ "\n\n" ++
              "*High-Priority Watchlist (Top 3 by Position)*\n\n" ++
              watchlist_text ++ "\n" ++ SEP ++ "\n" ++
              "*Detailed Player Statistics will follow in separate messages.*"
            ⟨0, 4,
             (chunk1 :: position_summaries).map (fun t => clean_and_limit_text t 4096)⟩
    | _, _ => ⟨0, 2, []⟩

-- ====================================================================
-- Theorems
-- ====================================================================

-- === C1: message chunking ===

/-- Claim C1, as stated, is false at a concrete input: the message-assembly
step truncates rather than splits.  For the 2-character document `"ab"`
with chunk limit 1 the code produces one chunk (not `ceil(2/1) = 2`), so
the conjunction `number of chunks = ceil(L/M)` and `concatenation
reproduces the document` fails. -/
theorem message_chunks_claim_false :
    ¬ (((message_chunks "ab" 1).length = ("ab".length + 1 - 1) / 1) ∧
       String.join (message_chunks "ab" 1) = "ab") := by
  decide

/-- Claim C1 (amended): for every document and chunk limit, the
message-assembly step produces exactly one chunk consisting of the first
`min(L, M)` characters of the document; concatenating the chunks therefore
reproduces the document exactly if and only if `L ≤ M` — any longer
document is truncated and its tail is dropped. -/
theorem message_chunks_single_truncated (text : String) (limit : Nat) :
    (message_chunks text limit).length = 1 ∧
    String.join (message_chunks text limit) = String.mk (text.data.take limit) := by
  refine ⟨rfl, ?_⟩
  unfold message_chunks clean_and_limit_text
  split
  · rfl
  · next h =>
    rw [List.take_of_length_le (Nat.le_of_not_lt h)]
    cases text
    rfl

-- === C2: fixture-difficulty rating ===

theorem dictGet?_cons (k2 : Int) (l : α) (rest : List (Int × α)) (k : Int) :
    dictGet? ((k2, l) :: rest) k = if k2 = k then some l else dictGet? rest k := by
  by_cases h : k2 = k <;> simp [dictGet?, List.find?_cons, h]

theorem dictGet?_appendEntry (d : List (Int × List α)) (k k2 : Int) (v : α) :
    dictGet? (appendEntry d k v) k2 =
      if k2 = k then some ((dictGet? d k).getD [] ++ [v]) else dictGet? d k2 := by
  induction d with
  | nil =>
    by_cases h : k2 = k
    · subst h; simp [appendEntry, dictGet?_cons, dictGet?]
    · simp [appendEntry, dictGet?_cons, h, Ne.symm h, dictGet?]
  | cons e rest ih =>
    obtain ⟨k3, l⟩ := e
    by_cases h3 : k3 = k
    · subst h3
      show dictGet? (if k3 = k3 then (k3, l ++ [v]) :: rest else _) k2 = _
      rw [if_pos rfl, dictGet?_cons, dictGet?_cons]
      by_cases h : k2 = k3
      · subst h; simp
      · simp [dictGet?_cons, h, Ne.symm h]
    · show dictGet? (if k3 = k then _ else (k3, l) :: appendEntry rest k v) k2 = _
      rw [if_neg h3, dictGet?_cons, ih, dictGet?_cons, dictGet?_cons]
      by_cases h : k2 = k
      · subst h
        have h4 : ¬ (k3 = k2) := h3
        simp [h4]
      · by_cases h4 : k3 = k2 <;> simp [h4, h]

theorem dictGetDnil_appendEntry (d : List (Int × List α)) (k k2 : Int) (v : α) :
    dictGetD (appendEntry d k v) k2 [] =
      if k2 = k then dictGetD d k [] ++ [v] else dictGetD d k2 [] := by
  unfold dictGetD
  rw [dictGet?_appendEntry]
  by_cases h : k2 = k <;> simp [h]

/-- One-step unfolding of `upcomingDiffs`. -/
theorem upcomingDiffs_cons (f : Fixture) (fs : List Fixture) (tid : Int) :
    upcomingDiffs (f :: fs) tid =
      if f.finished.getD false then upcomingDiffs fs tid
      else
        ((if f.team_h = tid then [f.team_h_difficulty.getD 3] else []) ++
         (if f.team_a = tid then [f.team_a_difficulty.getD 3] else [])) ++
        upcomingDiffs fs tid := rfl

/-- Accumulated-difficulty invariant of the fixture loop in
`calculate_fixture_difficulty`: folding the loop body over `fixtures`
extends every looked-up bucket by exactly the difficulties that
`upcomingDiffs` collects, in order. -/
theorem foldl_fdrStep_getD (fixtures : List Fixture) :
    ∀ (d : List (Int × List Int)) (tid : Int),
      dictGetD (fixtures.foldl fdrStep d) tid [] =
        dictGetD d tid [] ++ upcomingDiffs fixtures tid := by
  induction fixtures with
  | nil => intro d tid; simp [upcomingDiffs]
  | cons f fs ih =>
    intro d tid
    rw [List.foldl_cons, ih, upcomingDiffs_cons]
    by_cases hfin : f.finished.getD false
    · simp [fdrStep, hfin]
    · simp only [fdrStep, hfin, Bool.false_eq_true, ite_false]
      rw [dictGetDnil_appendEntry]
      by_cases h2 : f.team_h = tid <;> by_cases h1 : f.team_a = tid
      · subst h2
        simp [dictGetDnil_appendEntry, h1, List.append_assoc]
      · subst h2
        simp [dictGetDnil_appendEntry, h1,
          show ¬ (f.team_h = f.team_a) from fun hh => h1 hh.symm,
          List.append_assoc]
      · subst h1
        simp [dictGetDnil_appendEntry, h2,
          show ¬ (f.team_a = f.team_h) from fun hh => h2 hh.symm,
          List.append_assoc]
      · simp [dictGetDnil_appendEntry, h1, h2,
          show ¬ (tid = f.team_a) from fun hh => h1 hh.symm,
          show ¬ (tid = f.team_h) from fun hh => h2 hh.symm,
          List.append_assoc]

/-- Every bucket of the initial `{t["id"]: [] for t in teams}` dict is
empty. -/
theorem initTeamFixtures_getD (teams : List Team) (tid : Int) :
    dictGetD (initTeamFixtures teams) tid [] = [] := by
  unfold initTeamFixtures
  suffices h : ∀ (d : List (Int × List Int)),
      (∀ e ∈ d, e.2 = ([] : List Int)) →
      dictGetD (teams.foldl
        (fun d t => if (dictGet? d t.id).isSome then d else d ++ [(t.id, [])]) d)
        tid [] = [] by
    exact h [] (by simp)
  induction teams with
  | nil =>
    intro d hd
    unfold dictGetD
    cases hfind : dictGet? d tid with
    | none => simp [List.foldl_nil, hfind]
    | some l =>
      simp only [List.foldl_nil, hfind, Option.getD_some]
      unfold dictGet? at hfind
      obtain ⟨e, he, he2⟩ := Option.map_eq_some'.mp hfind
      exact he2 ▸ hd e (List.mem_of_find?_eq_some he)
  | cons t ts ih =>
    intro d hd
    rw [List.foldl_cons]
    by_cases hmem : (dictGet? d t.id).isSome
    · simp only [hmem, if_true]
      exact ih d hd
    · simp only [hmem, Bool.false_eq_true, if_neg, ite_false]
      refine ih _ (fun e he => ?_)
      rcases List.mem_append.mp he with h | h
      · exact hd e h
      · simp at h
        simp [h]

theorem dictGet?_mapSnd (g : α → β) (d : List (Int × α)) (k : Int) :
    dictGet? (d.map (fun e => (e.1, g e.2))) k = (dictGet? d k).map g := by
  induction d with
  | nil => rfl
  | cons e rest ih =>
    obtain ⟨k2, l⟩ := e
    by_cases h : k2 = k <;> simp [dictGet?_cons, h, ih]

/-- `fdrOf` as a case split on the whole bucket (taking at most 3 keeps a
nonempty bucket nonempty). -/
theorem fdrOf_eq (l : List Int) :
    fdrOf l =
      if l = [] then 3
      else round2 (((l.take 3).map (Int.cast : Int → ℚ)).sum / (l.take 3).length) := by
  cases l with
  | nil => rfl
  | cons x xs => simp [fdrOf]

/-- Claim C2, as stated, is false at a concrete input: the code rounds the
mean to two decimal places (`round(..., 2)`).  For a team (id 1) whose
first three upcoming unfinished fixtures have difficulties 1, 1, 2 the
computed rating is `1.33`, which differs from the arithmetic mean `4/3`. -/
theorem fixture_difficulty_claim_false :
    upcomingDiffs
      [⟨1, 2, some 1, some 3, some 1, some false⟩,
       ⟨1, 2, some 1, some 3, some 1, some false⟩,
       ⟨1, 2, some 2, some 3, some 1, some false⟩] 1 = [1, 1, 2] ∧
    dictGetD
      (calculate_fixture_difficulty
        [⟨1, 2, some 1, some 3, some 1, some false⟩,
         ⟨1, 2, some 1, some 3, some 1, some false⟩,
         ⟨1, 2, some 2, some 3, some 1, some false⟩]
        [⟨1, none, none, none, none, none, none⟩]) 1 3 ≠
      ((1 : ℚ) + 1 + 2) / 3 := by
  refine ⟨rfl, ?_⟩
  have h : dictGetD
      (calculate_fixture_difficulty
        [⟨1, 2, some 1, some 3, some 1, some false⟩,
         ⟨1, 2, some 1, some 3, some 1, some false⟩,
         ⟨1, 2, some 2, some 3, some 1, some false⟩]
        [⟨1, none, none, none, none, none, none⟩]) 1 3 = fdrOf [1, 1, 2] := rfl
  rw [h, fdrOf_eq, if_neg]
  · norm_num [round2, round_eq]
  · simp

/-- Claim C2 (amended): for every team id, the computed fixture-difficulty
rating equals the arithmetic mean of the first at-most-3 unfinished-fixture
difficulty values collected for that team in fixture order, rounded to two
decimal places; for a team with zero upcoming unfinished fixtures (or one
absent from the dict) it equals exactly 3.0. -/
theorem fixture_difficulty_rounded_mean (fixtures : List Fixture)
    (teams : List Team) (tid : Int) :
    dictGetD (calculate_fixture_difficulty fixtures teams) tid 3 =
      if upcomingDiffs fixtures tid = [] then 3
      else
        round2 ((((upcomingDiffs fixtures tid).take 3).map
            (Int.cast : Int → ℚ)).sum /
          ((upcomingDiffs fixtures tid).take 3).length) := by
  have hb : dictGetD (buildTeamFixtures fixtures teams) tid [] =
      upcomingDiffs fixtures tid := by
    unfold buildTeamFixtures
    rw [foldl_fdrStep_getD, initTeamFixtures_getD, List.nil_append]
  rw [← fdrOf_eq]
  unfold calculate_fixture_difficulty dictGetD
  rw [dictGet?_mapSnd]
  unfold dictGetD at hb
  cases hg : dictGet? (buildTeamFixtures fixtures teams) tid with
  | none =>
    rw [hg] at hb
    simp only [Option.getD_none] at hb
    simp [← hb, fdrOf]
  | some l =>
    rw [hg] at hb
    simp only [Option.getD_some] at hb
    simp [hb]

-- === C3: composite-score monotonicity ===

/-- Claim C3, as stated, is false at a concrete input: a player whose
`form` string parses to a negative value has a composite score that
strictly *increases* with fixture difficulty.  Two players with identical
form `"-1"` on teams whose difficulty ratings are 1 and 2 witness this:
equal form, larger difficulty, strictly larger `form_fixture_score`. -/
theorem composite_score_claim_false :
    (enrichPlayer [(1, 1), (2, 2)] []
        ⟨1, none, some 1, some 3, some 50, some 10, some "-1", none, none, none⟩).form_value =
      (enrichPlayer [(1, 1), (2, 2)] []
        ⟨2, none, some 2, some 3, some 50, some 10, some "-1", none, none, none⟩).form_value ∧
    (enrichPlayer [(1, 1), (2, 2)] []
        ⟨1, none, some 1, some 3, some 50, some 10, some "-1", none, none, none⟩).fixture_difficulty <
      (enrichPlayer [(1, 1), (2, 2)] []
        ⟨2, none, some 2, some 3, some 50, some 10, some "-1", none, none, none⟩).fixture_difficulty ∧
    (enrichPlayer [(1, 1), (2, 2)] []
        ⟨1, none, some 1, some 3, some 50, some 10, some "-1", none, none, none⟩).form_fixture_score <
      (enrichPlayer [(1, 1), (2, 2)] []
        ⟨2, none, some 2, some 3, some 50, some 10, some "-1", none, none, none⟩).form_fixture_score := by
  have hp : parseFloat "-1" = some (-1) := rfl
  have hfv : form_value_of (some "-1") = -1 := by
    have he : ("-1".isEmpty) = false := rfl
    simp [form_value_of, hp, he]
  refine ⟨rfl, ?_, ?_⟩
  · show (1 : ℚ) < 2
    norm_num
  · have h1 : (enrichPlayer [(1, 1), (2, 2)] []
        ⟨1, none, some 1, some 3, some 50, some 10, some "-1", none, none, none⟩).form_fixture_score =
        form_fixture_score_fn (-1) 1 := by
      show form_fixture_score_fn (form_value_of (some "-1")) 1 = _
      rw [hfv]
    have h2 : (enrichPlayer [(1, 1), (2, 2)] []
        ⟨2, none, some 2, some 3, some 50, some 10, some "-1", none, none, none⟩).form_fixture_score =
        form_fixture_score_fn (-1) 2 := by
      show form_fixture_score_fn (form_value_of (some "-1")) 2 = _
      rw [hfv]
    rw [h1, h2]
    unfold form_fixture_score_fn
    norm_num

/-- Claim C3 (amended): the composite `form_fixture_score` is monotonically
decreasing (non-increasing) in the fixture-difficulty rating with the form
value held fixed *provided the form value is non-negative*, and
monotonically increasing (non-decreasing) in the form value with the
difficulty held fixed *provided the difficulty rating is at most 5.5*
(true on the difficulty domain 1..5 the spec states). -/
theorem form_fixture_score_fn_monotone (f f1 f2 d d1 d2 : ℚ) :
    (0 ≤ f → d1 ≤ d2 →
      form_fixture_score_fn f d2 ≤ form_fixture_score_fn f d1) ∧
    (d ≤ 5.5 → f1 ≤ f2 →
      form_fixture_score_fn f1 d ≤ form_fixture_score_fn f2 d) := by
  constructor
  · intro hf hd
    unfold form_fixture_score_fn
    exact mul_le_mul_of_nonneg_left (by linarith) hf
  · intro hd hf
    unfold form_fixture_score_fn
    exact mul_le_mul_of_nonneg_right hf (by linarith)

/-- Witness instantiating `form_fixture_score_fn_monotone` at concrete
values with its hypotheses discharged. -/
theorem form_fixture_score_fn_monotone_witness :
    (form_fixture_score_fn 1 2 ≤ form_fixture_score_fn 1 1) ∧
    (form_fixture_score_fn 1 1 ≤ form_fixture_score_fn 2 1) :=
  ⟨(form_fixture_score_fn_monotone 1 1 2 1 1 2).1 (by norm_num) (by norm_num),
   (form_fixture_score_fn_monotone 1 1 2 1 1 2).2 (by norm_num) (by norm_num)⟩

-- === C4: selected_by_percent parse failure propagates ===

/-- Claim C4 is violated by the code (code bug): in `summarize_players`
the differential filter calls `float(p.get("selected_by_percent", 0))`
with no `try` around it, so a non-numeric value (here `"N/A"`) raises
`ValueError` out of the selection/formatting step instead of being
recovered with a neutral default. -/
theorem summarize_players_propagates_parse_error :
    summarize_players
      [⟨⟨7, some "X", some 1, some 1, some 50, some 10, some "1.0", some "N/A",
         some 0, some 0⟩, 0, 0, 3, 0, "N/A"⟩] [] =
      Except.error "ValueError: could not convert string to float" := rfl

-- === C5: empty ranked lists render the literal "None" ===

/-- Claim C5 (confirmed): when the list selected for a section is empty,
both renderers emit the literal marker `"None"` after the section header —
never an empty string — so no section is silently omitted: `fmt` (used for
all six per-position ranked lists) and the watchlist position block. -/
theorem empty_list_renders_none (teams_map_short : List (Int × String))
    (title pos_name : String) (metric : EPlayer → ℚ) (round_digits : Nat)
    (show_fixtures : Bool) :
    fmt teams_map_short title [] metric round_digits show_fixtures =
      section_title_of title ++ "\nNone" ∧
    watch_section teams_map_short pos_name [] =
      "*" ++ pos_name ++ ":*\n" ++ "None" := ⟨rfl, rfl⟩

-- === C8: zero cost gives zero points_per_cost ===

/-- Claim C8 (confirmed): for a player whose `now_cost` reads as 0 the
guarded conditional in `enrich_players` yields `points_per_cost = 0`
without ever evaluating the division. -/
theorem points_per_cost_zero_cost (team_fdr : List (Int × ℚ))
    (team_fixture_map : List (Int × String)) (p : Player)
    (h : p.now_cost.getD 0 = 0) :
    (enrichPlayer team_fdr team_fixture_map p).points_per_cost = 0 := by
  show points_per_cost_of (p.now_cost.getD 0) (p.total_points.getD 0) = 0
  rw [h]
  rfl

/-- Witness instantiating `points_per_cost_zero_cost` at a concrete
player with `now_cost = 0`. -/
theorem points_per_cost_zero_cost_witness :
    (enrichPlayer [] []
      ⟨1, none, none, none, some 0, some 7, none, none, none, none⟩).points_per_cost =
      0 :=
  points_per_cost_zero_cost [] []
    ⟨1, none, none, none, some 0, some 7, none, none, none, none⟩ rfl

-- === C9: unparseable form gives zero form_value ===

/-- Claim C9 (confirmed): for a player whose `form` field is absent/null or
fails to parse as a decimal, the guarded conversion in `enrich_players`
yields `form_value = 0.0`; the model is a total function, mirroring that
the `except` clause lets no exception escape. -/
theorem form_value_unparseable_zero (team_fdr : List (Int × ℚ))
    (team_fixture_map : List (Int × String)) (p : Player)
    (h : ∀ s, p.form = some s → parseFloat s = none) :
    (enrichPlayer team_fdr team_fixture_map p).form_value = 0 := by
  show form_value_of p.form = 0
  cases hf : p.form with
  | none => rfl
  | some s => simp [form_value_of, h s hf]

/-- Witness instantiating `form_value_unparseable_zero` at a concrete
player with the non-numeric form string `"abc"`. -/
theorem form_value_unparseable_zero_witness :
    (enrichPlayer [] []
      ⟨1, none, none, none, some 50, some 7, some "abc", none, none,
       none⟩).form_value = 0 :=
  form_value_unparseable_zero [] []
    ⟨1, none, none, none, some 50, some 7, some "abc", none, none, none⟩
    (fun s hs => by cases hs; rfl)

-- === C10: transfer buy-candidates ignore watch_score ===

theorem insertDescBy_const [LinearOrder β] (c : β) (x : α) (acc : List α) :
    insertDescBy (fun _ => c) x acc = acc ++ [x] := by
  induction acc with
  | nil => rfl
  | cons y ys ih => simp [insertDescBy, ih]

/-- A stable descending sort under a constant key is the identity. -/
theorem sortedDescBy_const [LinearOrder β] (c : β) (l : List α) :
    sortedDescBy (fun _ => c) l = l := by
  suffices h : ∀ acc : List α,
      l.foldl (fun acc x => insertDescBy (fun _ => c) x acc) acc = acc ++ l by
    simpa using h []
  induction l with
  | nil => intro acc; simp
  | cons x xs ih =>
    intro acc
    rw [List.foldl_cons, insertDescBy_const, ih]
    simp

/-- Claim C10 (confirmed): in `get_personal_analysis` the per-position
top-3 buy candidates are just the first three players of that position not
in the squad, in original element order — the sort key reads the leftover
loop variable `p`, so it is constant and the stable sort changes
nothing. -/
theorem personal_top_watch_ignores_watch_score (elements : List EPlayer)
    (my_picks : List Int) (pos_id : Int) :
    personalTopWatch elements my_picks pos_id =
      ((elements.filter (fun p => p.player.element_type == some pos_id)).filter
        (fun p => ¬ my_picks.contains p.player.id)).take 3 := by
  simp only [personalTopWatch, sortedDescBy_const]

-- === C6: missing credentials abort before any HTTP call ===

/-- Claim C6 (confirmed): if either messaging credential environment
variable is unset (or empty — both are falsy in the guard), the
orchestrator exits with the non-zero code 1 having attempted zero inbound
fetches and posted zero outbound messages. -/
theorem run_exits_before_http (cfg : Config) (env : FetchEnv)
    (parseIso : String → Option Int) (now : Int) (fmtDeadline : Int → String)
    (h : strFalsy cfg.token = true ∨ strFalsy cfg.chatId = true) :
    (run_daily_digest cfg env parseIso now fmtDeadline).exitCode ≠ 0 ∧
    (run_daily_digest cfg env parseIso now fmtDeadline).fetchCalls = 0 ∧
    (run_daily_digest cfg env parseIso now fmtDeadline).sentMessages = [] := by
  have hcond : (strFalsy cfg.token || strFalsy cfg.chatId) = true := by
    rcases h with h | h <;> simp [h]
  unfold run_daily_digest
  rw [if_pos hcond]
  exact ⟨by decide, rfl, rfl⟩

/-- Witness instantiating `run_exits_before_http` with the token variable
unset. -/
theorem run_exits_before_http_witness :
    (run_daily_digest ⟨none, some "c"⟩ ⟨none, none, none, none⟩
        (fun _ => none) 0 (fun _ => "")).exitCode ≠ 0 ∧
    (run_daily_digest ⟨none, some "c"⟩ ⟨none, none, none, none⟩
        (fun _ => none) 0 (fun _ => "")).fetchCalls = 0 ∧
    (run_daily_digest ⟨none, some "c"⟩ ⟨none, none, none, none⟩
        (fun _ => none) 0 (fun _ => "")).sentMessages = [] :=
  run_exits_before_http ⟨none, some "c"⟩ ⟨none, none, none, none⟩
    (fun _ => none) 0 (fun _ => "") (Or.inl rfl)

-- === C7: season over means exit 0 and zero messages ===

/-- When every event reads as finished, the deadline scan returns
nothing. -/
theorem get_next_deadline_none_of_all_finished (parseIso : String → Option Int)
    (events : List Event) (h : ∀ e ∈ events, eventFinished e = true) :
    get_next_deadline parseIso events = none := by
  induction events with
  | nil => rfl
  | cons e es ih =>
    rw [get_next_deadline, if_pos (h e (List.mem_cons_self e es))]
    exact ih (fun e2 h2 => h e2 (List.mem_cons_of_mem e h2))

/-- Claim C7 (confirmed): with credentials set and both fetches succeeding,
if the events list contains no unfinished event the orchestrator
terminates with exit code 0 and posts zero messages to the chat
endpoint. -/
theorem run_season_over_no_messages (cfg : Config) (env : FetchEnv)
    (parseIso : String → Option Int) (now : Int) (fmtDeadline : Int → String)
    (data : Bootstrap) (fixtures : List Fixture)
    (h1 : strFalsy cfg.token = false) (h2 : strFalsy cfg.chatId = false)
    (h3 : env.fplData = some data) (h4 : env.fixturesData = some fixtures)
    (h5 : ∀ e ∈ data.events, eventFinished e = true) :
    (run_daily_digest cfg env parseIso now fmtDeadline).exitCode = 0 ∧
    (run_daily_digest cfg env parseIso now fmtDeadline).sentMessages = [] := by
  have hd := get_next_deadline_none_of_all_finished parseIso data.events h5
  have hne : ¬ ((strFalsy cfg.token || strFalsy cfg.chatId) = true) := by
    simp [h1, h2]
  unfold run_daily_digest
  rw [h3, h4, if_neg hne]
  by_cases hfe : fixtures.isEmpty
  · simp [hfe]
  · simp [hfe, hd]

/-- Witness instantiating `run_season_over_no_messages` on a one-event
(finished) season snapshot with all hypotheses discharged. -/
theorem run_season_over_no_messages_witness :
    (run_daily_digest ⟨some "t", some "c"⟩
        ⟨some ⟨[⟨some 1, some "GW1", some "2025-05-25T13:30:00Z", some true⟩], [], []⟩,
         some [], none, none⟩ (fun _ => none) 0 (fun _ => "")).exitCode = 0 ∧
    (run_daily_digest ⟨some "t", some "c"⟩
        ⟨some ⟨[⟨some 1, some "GW1", some "2025-05-25T13:30:00Z", some true⟩], [], []⟩,
         some [], none, none⟩ (fun _ => none) 0 (fun _ => "")).sentMessages = [] :=
  run_season_over_no_messages ⟨some "t", some "c"⟩
    ⟨some ⟨[⟨some 1, some "GW1", some "2025-05-25T13:30:00Z", some true⟩], [], []⟩,
     some [], none, none⟩ (fun _ => none) 0 (fun _ => "")
    ⟨[⟨some 1, some "GW1", some "2025-05-25T13:30:00Z", some true⟩], [], []⟩ []
    rfl rfl rfl rfl
    (by
      intro e he
      rw [List.mem_singleton] at he
      subst he
      rfl)
